import Mathlib

/-!
Shallow embedding of the canvas-visual plugin (src/src/visual.ts).

Modelling conventions:
- JS numbers are modelled by the rationals; every arithmetic step of the
  source is linear or a single division, and no claim depends on binary
  floating-point rounding.
- A JS value that may be `undefined` is modelled by an `Option`; in
  particular `values.values[i]` for an out-of-range `i` is `none`, and a
  `NaN` produced by arithmetic on `undefined` propagates through
  `Option.map`.
- A hex color string of the form "#rrggbb" is modelled by its 24-bit
  numeric value (a `Nat` below `16777216`): `parseInt(hex, 16)` and
  `toString(16).padStart(6, "0")` translate bijectively between the two
  for well-formed 6-hex-digit colors, which is the only case the claims
  consider.
- Angles of the donut layout are stored in units of full turns (one turn
  equals 2 pi radians); d3 stores them in radians, a fixed linear
  rescaling, and the theorems state the radian form by multiplying with
  `2 * Real.pi`.
- The drawing surfaces are modelled by the lists of drawing commands the
  renderers issue to them, and the visual instance by a state record that
  update transforms.
-/

/-- Clamp a channel to the byte range, `Math.max(0, Math.min(255, x))`
(src/src/visual.ts lines 448-450). -/
def clamp255 (x : ℤ) : ℤ := max 0 (min 255 x)

/-- Red channel of a 24-bit color, `num >> 16` (src/src/visual.ts line 448).
For `num < 2^24` the JS shift equals division by 65536. -/
def channelR (num : ℕ) : ℕ := num / 65536

/-- Green channel, `(num >> 8) & 0x00FF` (src/src/visual.ts line 449). -/
def channelG (num : ℕ) : ℕ := num / 256 % 256

/-- Blue channel, `num & 0x0000FF` (src/src/visual.ts line 450). -/
def channelB (num : ℕ) : ℕ := num % 256

/-- Visual.adjustColorBrightness (src/src/visual.ts lines 445-452), over the
24-bit value of the color string. Each channel is offset by `amount` and
clamped to [0, 255]; the result `(r << 16) | (g << 8) | b` equals
`r * 65536 + g * 256 + b` because the three fields occupy disjoint bits. -/
def adjustColorBrightness (num : ℕ) (amount : ℤ) : ℕ :=
  let r := clamp255 ((channelR num : ℤ) + amount)
  let g := clamp255 ((channelG num : ℤ) + amount)
  let b := clamp255 ((channelB num : ℤ) + amount)
  r.toNat * 65536 + g.toNat * 256 + b.toNat

/-- One column of category labels: `categorical.categories[k].values`. -/
structure CategoryColumn where
  values : List String
deriving DecidableEq, Repr

/-- One column of measures: `categorical.values[k].values`. -/
structure ValueColumn where
  values : List ℚ
deriving DecidableEq, Repr

/-- The categorical part of a data view. The source reads
`categorical.categories?.[0]` and `categorical.values?.[0]`; an absent or
empty array both yield no column, modelled by `List.head?`. -/
structure Categorical where
  categories : List CategoryColumn
  values : List ValueColumn
deriving DecidableEq, Repr

/-- A host data view; `categorical` may be absent. -/
structure DataView where
  categorical : Option Categorical
deriving DecidableEq, Repr

/-- The host viewport passed to update. -/
structure Viewport where
  width : ℚ
  height : ℚ
deriving DecidableEq, Repr

/-- The argument of Visual.update. `options.dataViews` being `undefined`
and being `[]` behave identically in the source (both fail the guard and
both make `options.dataViews?.[0]` undefined), so one list models both. -/
structure VisualUpdateOptions where
  dataViews : List DataView
  viewport : Viewport
deriving DecidableEq, Repr

/-- The DataPoint record (src/src/visual.ts lines 41-45). `value` is an
`Option` because `values.values[i] as number` is `undefined` whenever the
value array is shorter than the category array. -/
structure DataPoint where
  category : String
  value : Option ℚ
  color : ℕ
deriving DecidableEq, Repr

/-- The extraction loop of Visual.getDataPoints (src/src/visual.ts lines
214-222): `i` runs over the whole category array, pairing each label with
`values.values[i]` and the palette color keyed by `i.toString()`. -/
def dataPointsLoop (palette : String → ℕ) (vals : List ℚ) : ℕ → List String → List DataPoint
  | _, [] => []
  | i, c :: cs =>
    { category := c, value := vals[i]?, color := palette (Nat.repr i) }
      :: dataPointsLoop palette vals (i + 1) cs

/-- Visual.getDataPoints (src/src/visual.ts lines 202-225). The caller
(update) guarantees `categorical` is present, so the embedding receives the
categorical payload directly. If either first column is absent the result
is empty. -/
def getDataPoints (palette : String → ℕ) (categorical : Categorical) : List DataPoint :=
  match categorical.categories.head?, categorical.values.head? with
  | some categories, some values => dataPointsLoop palette values.values 0 categories.values
  | _, _ => []

/-- The fixed margins of the bar renderer (src/src/visual.ts line 69). -/
structure Margin where
  top : ℚ
  right : ℚ
  bottom : ℚ
  left : ℚ
deriving DecidableEq, Repr

/-- `margin = { top: 30, right: 20, bottom: 50, left: 50 }`. -/
def margin : Margin := { top := 30, right := 20, bottom := 50, left := 50 }

/-- JS `x.toFixed(0)`: the integer closest to `x`, the larger one on a
tie (ECMA-262 Number.prototype.toFixed). -/
def jsToFixed0 (q : ℚ) : ℤ := Int.floor (q + 1 / 2)

/-- `d3.max(dataPoints, d => d.value)` (src/src/visual.ts line 246): the
maximum of the defined values, `undefined` when there is none; undefined
entries are skipped. -/
def d3Max : List (Option ℚ) → Option ℚ
  | [] => none
  | none :: rest => d3Max rest
  | some v :: rest =>
    match d3Max rest with
    | none => some v
    | some m => some (max v m)

/-- `d3.max(dataPoints, d => d.value) || 1` (src/src/visual.ts line 246):
a falsy maximum (0 or absent) is replaced by 1. -/
def maxValueOf (dataPoints : List DataPoint) : ℚ :=
  match d3Max (dataPoints.map (fun d => d.value)) with
  | none => 1
  | some m => if m = 0 then 1 else m

/-- The drawing commands one loop iteration of the bar renderer issues
(src/src/visual.ts lines 249-282), in the chart-local coordinate system
established by `ctx.translate(margin.left, margin.top)`. An `Option`
coordinate is `NaN` in the source when the measure is undefined. -/
structure BarDraw where
  x : ℚ
  y : Option ℚ
  barWidth : ℚ
  barHeight : Option ℚ
  fillTop : ℕ
  fillBottom : ℕ
  valueLabel : Option String
  categoryLabel : String
deriving DecidableEq, Repr

/-- The canvas surface content after a bar-renderer call: the clearRect
dimensions, if any clear ran, and the bars drawn after it. -/
structure CanvasSurface where
  cleared : Option (ℚ × ℚ)
  bars : List BarDraw
deriving DecidableEq, Repr

/-- One iteration of `dataPoints.forEach((d, i) => ...)` in the bar
renderer (src/src/visual.ts lines 249-282). -/
def mkBar (maxValue chartHeight barWidth spacing : ℚ) (i : ℕ) (d : DataPoint) : BarDraw :=
  let barHeight := d.value.map (fun v => v / maxValue * chartHeight)
  { x := (i : ℚ) * spacing + spacing * 0.1
  , y := barHeight.map (fun bh => chartHeight - bh)
  , barWidth := barWidth
  , barHeight := barHeight
  , fillTop := d.color
  , fillBottom := adjustColorBrightness d.color (-30)
  , valueLabel := d.value.map (fun v => toString (jsToFixed0 v))
  , categoryLabel := d.category }

/-- The bar-drawing loop with its running index. -/
def barListAux (maxValue chartHeight barWidth spacing : ℚ) : ℕ → List DataPoint → List BarDraw
  | _, [] => []
  | i, d :: rest =>
    mkBar maxValue chartHeight barWidth spacing i d
      :: barListAux maxValue chartHeight barWidth spacing (i + 1) rest

/-- Visual.renderCanvasBarChart (src/src/visual.ts lines 227-285): clear
the surface, then return without drawing when either chart dimension is
non-positive, else draw one bar group per data point. -/
def renderCanvasBarChart (dataPoints : List DataPoint) (width height : ℚ) : CanvasSurface :=
  let chartWidth := width - margin.left - margin.right
  let chartHeight := height - margin.top - margin.bottom
  if chartWidth ≤ 0 ∨ chartHeight ≤ 0 then
    { cleared := some (width, height), bars := [] }
  else
    let barWidth := chartWidth / (dataPoints.length : ℚ) * 0.8
    let spacing := chartWidth / (dataPoints.length : ℚ)
    let maxValue := maxValueOf dataPoints
    { cleared := some (width, height)
    , bars := barListAux maxValue chartHeight barWidth spacing 0 dataPoints }

/-- The `v > 0` test of d3.pie on a possibly-undefined value: `NaN > 0`
is false, so an undefined measure contributes nothing. -/
def isPosValue : Option ℚ → Bool
  | some v => decide (0 < v)
  | none => false

/-- The sum d3.pie accumulates: only strictly positive values count. -/
def piePositiveSum : List (Option ℚ) → ℚ
  | [] => 0
  | ov :: rest => (if isPosValue ov then ov.getD 0 else 0) + piePositiveSum rest

/-- The angular span, in turns, d3.pie assigns to one value: positive
values get their proportional share of the circle, others get zero; when
the total is zero d3 uses a zero scale factor. -/
def pieSpanOf (total : ℚ) (ov : Option ℚ) : ℚ :=
  if isPosValue ov then (if total = 0 then 0 else ov.getD 0 / total) else 0

/-- The accumulation of start and end angles of
`d3.pie().value(d => d.value).sort(null)` (src/src/visual.ts lines
298-300), in input order, in turn units, starting from angle 0. -/
def pieArcsAux (total : ℚ) : ℚ → List DataPoint → List (DataPoint × ℚ × ℚ)
  | _, [] => []
  | a0, d :: rest =>
    let a1 := a0 + pieSpanOf total d.value
    (d, a0, a1) :: pieArcsAux total a1 rest

/-- `pie(dataPoints)` of the donut renderer: each datum with its start and
end angle. -/
def d3Pie (dataPoints : List DataPoint) : List (DataPoint × ℚ × ℚ) :=
  pieArcsAux (piePositiveSum (dataPoints.map (fun d => d.value))) 0 dataPoints

/-- One rendered donut segment: the path appended for one pie arc together
with its centred value label (src/src/visual.ts lines 320-347). The label
position (arc.centroid) is trigonometric and carries no verified property;
the label text and its segment are kept. -/
structure Arc where
  category : String
  value : Option ℚ
  color : ℕ
  startTurns : ℚ
  endTurns : ℚ
  innerRadius : ℚ
  outerRadius : ℚ
  valueLabel : Option String
deriving DecidableEq, Repr

/-- One legend row (src/src/visual.ts lines 354-372): an 18 by 18 swatch
and the text `category (value.toFixed(0))` at vertical offset `i * 25`. -/
structure LegendRow where
  yOffset : ℚ
  swatchColor : ℕ
  label : Option String
deriving DecidableEq, Repr

/-- The SVG group content after a donut-renderer call, plus the outer
radius the hover handlers close over. -/
structure SvgContent where
  radius : ℚ
  arcs : List Arc
  legend : List LegendRow
deriving DecidableEq, Repr

/-- The legend construction loop with its running index. -/
def legendRowsAux : ℕ → List DataPoint → List LegendRow
  | _, [] => []
  | i, d :: rest =>
    { yOffset := (i : ℚ) * 25
    , swatchColor := d.color
    , label := d.value.map (fun v => d.category ++ " (" ++ toString (jsToFixed0 v) ++ ")")
    } :: legendRowsAux (i + 1) rest

/-- The path element appended for one pie arc: `arc` with the fixed inner
and outer radii of this render pass, filled with the datum's color, plus
the centred value label (src/src/visual.ts lines 320-347). -/
def toDonutArc (innerRadius radius : ℚ) (t : DataPoint × ℚ × ℚ) : Arc :=
  { category := t.1.category
  , value := t.1.value
  , color := t.1.color
  , startTurns := t.2.1
  , endTurns := t.2.2
  , innerRadius := innerRadius
  , outerRadius := radius
  , valueLabel := t.1.value.map (fun v => toString (jsToFixed0 v)) }

/-- Visual.renderSVGDonutChart (src/src/visual.ts lines 287-373): clear
the group, lay the points out as a pie in input order, draw one ring
segment per point from `radius * 0.6` to `radius`, then the legend. There
is no guard against non-positive dimensions. -/
def renderSVGDonutChart (dataPoints : List DataPoint) (width height : ℚ) : SvgContent :=
  let radius := (min width height) / 2 - 40
  let innerRadius := radius * 0.6
  { radius := radius
  , arcs := (d3Pie dataPoints).map (toDonutArc innerRadius radius)
  , legend := legendRowsAux 0 dataPoints }

/-- Replace the outer radius of the arc at one index, leaving every other
arc untouched: the effect of one hover handler, which rewrites only the
event target's path attribute. -/
def setOuterRadiusAt (r : ℚ) : ℕ → List Arc → List Arc
  | _, [] => []
  | 0, a :: rest => { a with outerRadius := r } :: rest
  | n + 1, a :: rest => a :: setOuterRadiusAt r n rest

/-- The mouseover handler (src/src/visual.ts lines 326-331): the hovered
path transitions to `arcHover`, whose outer radius is `radius + 10`. -/
def onDonutMouseover (c : SvgContent) (i : ℕ) : SvgContent :=
  { c with arcs := setOuterRadiusAt (c.radius + 10) i c.arcs }

/-- The mouseout handler (src/src/visual.ts lines 332-337): the hovered
path transitions back to `arc`, whose outer radius is `radius`. -/
def onDonutMouseout (c : SvgContent) (i : ℕ) : SvgContent :=
  { c with arcs := setOuterRadiusAt c.radius i c.arcs }

/-- The WebGL surface content: the clear color, if a clear ran, and the
vertices of the last draw call. -/
structure WebGLSurface where
  clearColor : Option (ℚ × ℚ × ℚ × ℚ)
  drawnVertices : List (ℚ × ℚ)
deriving DecidableEq, Repr

/-- The fixed two-triangle square of the placeholder renderer
(src/src/visual.ts lines 425-432). -/
def squareVertices : List (ℚ × ℚ) :=
  [(-0.5, -0.5), (0.5, -0.5), (0.5, 0.5), (-0.5, -0.5), (0.5, 0.5), (-0.5, 0.5)]

/-- Visual.renderWebGLText (src/src/visual.ts lines 375-443): a no-op when
the WebGL context was not acquired at construction, else clear to the dark
background and draw the fixed square; the previous surface content is
otherwise irrelevant. -/
def renderWebGLText (glSupported : Bool) (prev : WebGLSurface) : WebGLSurface :=
  if glSupported then
    { clearColor := some (0.1, 0.1, 0.1, 1), drawnVertices := squareVertices }
  else prev

/-- The formatting settings object. The host library call
`populateFormattingSettingsModel(model, dataViews?.[0])` is external code;
it is modelled as capturing the data view it was populated from, which is
all the claims observe about it. -/
structure FormattingSettings where
  sourceDataView : Option DataView
deriving DecidableEq, Repr

/-- The formatting model returned to the host, modelled as capturing the
settings it was built from (external host library). -/
structure FormattingModel where
  settings : FormattingSettings
deriving DecidableEq, Repr

/-- `formattingSettingsService.populateFormattingSettingsModel(..., dv)`. -/
def populateFormattingSettingsModel (dv : Option DataView) : FormattingSettings :=
  { sourceDataView := dv }

/-- `formattingSettingsService.buildFormattingModel(settings)`. -/
def buildFormattingModel (fs : FormattingSettings) : FormattingModel :=
  { settings := fs }

/-- A rendering-lifecycle signal of the host event service. -/
inductive HostEvent where
  | renderingStarted
  | renderingFinished
deriving DecidableEq, Repr

/-- The state a Visual instance owns: the WebGL capability decided at
construction, the current size of each of the three surfaces, their
contents, the formatting settings, and the trace of rendering-lifecycle
signals sent to the host. Visual.update (src/src/visual.ts lines 142-200)
never invokes the host event service, so no code path appends to the
trace. -/
structure VisualState where
  glSupported : Bool
  canvasWidth : ℚ
  canvasHeight : ℚ
  svgWidth : ℚ
  svgHeight : ℚ
  webglWidth : ℚ
  webglHeight : ℚ
  canvas : CanvasSurface
  svg : SvgContent
  webgl : WebGLSurface
  formattingSettings : FormattingSettings
  events : List HostEvent
deriving DecidableEq, Repr

/-- Visual.getFormattingModel (src/src/visual.ts lines 454-456). -/
def getFormattingModel (s : VisualState) : FormattingModel :=
  buildFormattingModel s.formattingSettings

/-- Visual.update (src/src/visual.ts lines 142-200). The formatting
settings are rebuilt first; then the guards return early when the first
data view, its categorical part, or the extracted point list is missing or
empty; only past the guards are the three surfaces resized to a third of
the viewport minus padding and the three renderers invoked in order. -/
def update (palette : String → ℕ) (s : VisualState) (options : VisualUpdateOptions) : VisualState :=
  let s1 := { s with
    formattingSettings := populateFormattingSettingsModel options.dataViews.head? }
  match options.dataViews.head? with
  | none => s1
  | some dataView =>
    match dataView.categorical with
    | none => s1
    | some categorical =>
      let dataPoints := getDataPoints palette categorical
      if dataPoints.length = 0 then s1
      else
        let thirdWidth := options.viewport.width / 3
        let titleHeight : ℚ := 40
        let canvasWidth := thirdWidth - 20
        let canvasHeight := options.viewport.height - titleHeight - 20
        let svgWidth := thirdWidth - 20
        let svgHeight := options.viewport.height - titleHeight - 20
        let webglWidth := thirdWidth - 20
        let webglHeight := options.viewport.height - titleHeight - 20
        { s1 with
          canvasWidth := canvasWidth
          canvasHeight := canvasHeight
          svgWidth := svgWidth
          svgHeight := svgHeight
          webglWidth := webglWidth
          webglHeight := webglHeight
          canvas := renderCanvasBarChart dataPoints canvasWidth canvasHeight
          svg := renderSVGDonutChart dataPoints svgWidth svgHeight
          webgl := renderWebGLText s1.glSupported s1.webgl }

/-- The data points one update call would extract: empty exactly when one
of the three early-return guards of Visual.update fires. -/
def extractedPoints (palette : String → ℕ) (options : VisualUpdateOptions) : List DataPoint :=
  match options.dataViews.head? with
  | none => []
  | some dataView =>
    match dataView.categorical with
    | none => []
    | some categorical => getDataPoints palette categorical

/-- A fixed palette for concrete evaluations. -/
def pal0 : String → ℕ := fun _ => 255

/-- Three data points with values 10, 20, 30. -/
def ps3 : List DataPoint :=
  [ { category := "a", value := some 10, color := 1 }
  , { category := "b", value := some 20, color := 2 }
  , { category := "c", value := some 30, color := 3 } ]

/-- One data point whose measure is zero. -/
def ps0zero : List DataPoint := [{ category := "a", value := some 0, color := 7 }]

/-- A leftover bar from an earlier render pass. -/
def bar0 : BarDraw :=
  { x := 0, y := some 0, barWidth := 1, barHeight := some 1
  , fillTop := 0, fillBottom := 0, valueLabel := none, categoryLabel := "old" }

/-- A visual state carrying content from an earlier render pass: stale
surface sizes, one stale bar on the canvas, an empty WebGL surface, and an
empty host-event trace. -/
def st0 : VisualState :=
  { glSupported := true
  , canvasWidth := 999, canvasHeight := 999
  , svgWidth := 999, svgHeight := 999
  , webglWidth := 999, webglHeight := 999
  , canvas := { cleared := none, bars := [bar0] }
  , svg := { radius := 0, arcs := [], legend := [] }
  , webgl := { clearColor := none, drawnVertices := [] }
  , formattingSettings := { sourceDataView := none }
  , events := [] }

/-- An update call with no data views at all. -/
def noDataOpts : VisualUpdateOptions :=
  { dataViews := [], viewport := { width := 900, height := 400 } }

/-- Three categories with measures 10, 20, 30. -/
def cat3 : Categorical :=
  { categories := [{ values := ["a", "b", "c"] }]
  , values := [{ values := [10, 20, 30] }] }

/-- An update call with three categories and measures 10, 20, 30 in a
900 by 400 viewport. -/
def dataOpts : VisualUpdateOptions :=
  { dataViews := [{ categorical := some cat3 }]
  , viewport := { width := 900, height := 400 } }

/-- Two category labels but a single measure: the parallel arrays have
different lengths. -/
def catMismatch : Categorical :=
  { categories := [{ values := ["a", "b"] }], values := [{ values := [1] }] }

/-- A single-column categorical payload for concrete evaluations. -/
def cats0 : CategoryColumn := { values := ["x"] }

/-- A single-value measure column for concrete evaluations. -/
def vals0 : ValueColumn := { values := [2] }

/-- The categorical payload pairing cats0 with vals0. -/
def catPair : Categorical := { categories := [cats0], values := [vals0] }

/-- C10: every update call, including one stopped by the no-data guards,
first rebuilds the formatting settings from the first data view, so a
subsequent getFormattingModel call reflects the most recent update. -/
theorem update_always_rebuilds_settings (pal : String → ℕ) (s : VisualState)
    (opts : VisualUpdateOptions) :
    (update pal s opts).formattingSettings = populateFormattingSettingsModel opts.dataViews.head? ∧
    getFormattingModel (update pal s opts) =
      buildFormattingModel (populateFormattingSettingsModel opts.dataViews.head?) := by
  obtain ⟨dvs, vp⟩ := opts
  rcases dvs with _ | ⟨⟨co⟩, rest⟩
  · exact ⟨rfl, rfl⟩
  · rcases co with _ | c
    · exact ⟨rfl, rfl⟩
    · by_cases hl : (getDataPoints pal c).length = 0 <;>
        simp [update, getFormattingModel, hl]

/-- C2 (amended): an update call never signals the host event service: the
trace of rendering-lifecycle signals is unchanged by every update path. -/
theorem update_emits_no_host_events (pal : String → ℕ) (s : VisualState)
    (opts : VisualUpdateOptions) :
    (update pal s opts).events = s.events := by
  obtain ⟨dvs, vp⟩ := opts
  rcases dvs with _ | ⟨⟨co⟩, rest⟩
  · rfl
  · rcases co with _ | c
    · rfl
    · by_cases hl : (getDataPoints pal c).length = 0 <;> simp [update, hl]

/-- C2 counterexample: a concrete update call with full data renders all
three surfaces yet emits no render-start signal, refuting the claim that
every update call signals render-start at its beginning. -/
theorem update_no_renderStart_signal :
    HostEvent.renderingStarted ∉ (update pal0 st0 dataOpts).events := by decide

/-- C1 (amended): an update call in which the first data view is missing,
has no categorical data, or yields an empty DataPoint list returns right
after rebuilding the formatting settings: no renderer runs, and all three
surfaces keep their previous content and sizes. -/
theorem update_noData_skips_render (pal : String → ℕ) (s : VisualState)
    (opts : VisualUpdateOptions) (h : extractedPoints pal opts = []) :
    update pal s opts =
      { s with formattingSettings := populateFormattingSettingsModel opts.dataViews.head? } := by
  obtain ⟨dvs, vp⟩ := opts
  rcases dvs with _ | ⟨⟨co⟩, rest⟩
  · rfl
  · rcases co with _ | c
    · rfl
    · have h2 : getDataPoints pal c = [] := h
      simp [update, h2]

/-- C1 witness: the no-data update over a concrete state and concrete
empty options. -/
theorem update_noData_skips_render_witness :
    extractedPoints pal0 noDataOpts = [] ∧
    update pal0 st0 noDataOpts =
      { st0 with formattingSettings := populateFormattingSettingsModel noDataOpts.dataViews.head? } :=
  ⟨by decide, update_noData_skips_render pal0 st0 noDataOpts (by decide)⟩

/-- C1 counterexample: after a no-data update over a state holding content
from an earlier pass, the placeholder surface holds no shape (the
placeholder renderer did not run) and the bar surface still holds its old
bar and was never cleared, refuting the claim as stated. -/
theorem update_noData_placeholder_not_drawn :
    (update pal0 st0 noDataOpts).webgl.drawnVertices = [] ∧
    (update pal0 st0 noDataOpts).canvas.cleared = none ∧
    (update pal0 st0 noDataOpts).canvas.bars ≠ [] := by decide

/-- The extraction loop produces one point per category label. -/
theorem dataPointsLoop_length (pal : String → ℕ) (vals : List ℚ) :
    ∀ (cs : List String) (i0 : ℕ), (dataPointsLoop pal vals i0 cs).length = cs.length := by
  intro cs
  induction cs with
  | nil => intro i0; rfl
  | cons c rest ih => intro i0; simp [dataPointsLoop, ih]

/-- Pointwise description of the extraction loop: the point at position j
pairs the category at j with the value at absolute index i0 + j and the
palette color keyed by that index. -/
theorem dataPointsLoop_getElem (pal : String → ℕ) (vals : List ℚ) :
    ∀ (cs : List String) (i0 j : ℕ),
      (dataPointsLoop pal vals i0 cs)[j]? =
        (cs[j]?).map (fun c =>
          { category := c, value := vals[i0 + j]?, color := pal (Nat.repr (i0 + j)) }) := by
  intro cs
  induction cs with
  | nil => intro i0 j; simp [dataPointsLoop]
  | cons c rest ih =>
    intro i0 j
    cases j with
    | zero => simp [dataPointsLoop]
    | succ j =>
      have h1 : i0 + (j + 1) = (i0 + 1) + j := by omega
      simp [dataPointsLoop, ih (i0 + 1) j, h1]

/-- C3 (amended): when both first columns are present the extracted list
has one point per entry of the category array (not the shorter of the two
arrays): point j pairs category j with the value at index j, which is
undefined when the value array is shorter, and the palette color keyed by
the string form of j; if either column is absent the list is empty. -/
theorem getDataPoints_shape (pal : String → ℕ) (categorical : Categorical) :
    (∀ cats vals, categorical.categories.head? = some cats →
        categorical.values.head? = some vals →
        (getDataPoints pal categorical).length = cats.values.length ∧
        ∀ j : ℕ, (getDataPoints pal categorical)[j]? =
          (cats.values[j]?).map (fun c =>
            { category := c, value := vals.values[j]?, color := pal (Nat.repr j) })) ∧
    ((categorical.categories.head? = none ∨ categorical.values.head? = none) →
      getDataPoints pal categorical = []) := by
  constructor
  · intro cats vals hc hv
    unfold getDataPoints
    rw [hc, hv]
    refine ⟨dataPointsLoop_length pal vals.values cats.values 0, fun j => ?_⟩
    simpa using dataPointsLoop_getElem pal vals.values cats.values 0 j
  · intro h
    unfold getDataPoints
    rcases hc : categorical.categories.head? with _ | cats <;>
      rcases hv : categorical.values.head? with _ | vals <;>
        simp_all

/-- C3 witness: a one-column payload evaluated concretely. -/
theorem getDataPoints_shape_witness :
    catPair.categories.head? = some cats0 ∧
    catPair.values.head? = some vals0 ∧
    (getDataPoints pal0 catPair).length = cats0.values.length ∧
    (getDataPoints pal0 catPair)[0]? =
      (cats0.values[0]?).map (fun c =>
        { category := c, value := vals0.values[0]?, color := pal0 (Nat.repr 0) }) :=
  ⟨rfl, rfl, ((getDataPoints_shape pal0 catPair).1 cats0 vals0 rfl rfl).1,
    ((getDataPoints_shape pal0 catPair).1 cats0 vals0 rfl rfl).2 0⟩

/-- C3 counterexample: with two category labels and a single measure, the
extracted list has length 2, the category array's length, not the length 1
of the shorter array, refuting the claim as stated. -/
theorem getDataPoints_length_not_min :
    (catMismatch.categories.head?.map (fun c => c.values.length)) = some 2 ∧
    (catMismatch.values.head?.map (fun v => v.values.length)) = some 1 ∧
    (getDataPoints pal0 catMismatch).length ≠ min 2 1 := by decide

/-- C5 (amended): an update call whose extracted DataPoint list is
non-empty sizes each of the three surfaces to width W / 3 - 20 and height
H - 40 - 20, the three widths sum to W - 60 which is at most W, and the
sizes depend only on the viewport; updates stopped by the no-data guards
leave the previous sizes in place. -/
theorem update_sizes_surfaces (pal : String → ℕ) (s : VisualState)
    (opts : VisualUpdateOptions) (h : extractedPoints pal opts ≠ []) :
    (update pal s opts).canvasWidth = opts.viewport.width / 3 - 20 ∧
    (update pal s opts).canvasHeight = opts.viewport.height - 40 - 20 ∧
    (update pal s opts).svgWidth = opts.viewport.width / 3 - 20 ∧
    (update pal s opts).svgHeight = opts.viewport.height - 40 - 20 ∧
    (update pal s opts).webglWidth = opts.viewport.width / 3 - 20 ∧
    (update pal s opts).webglHeight = opts.viewport.height - 40 - 20 ∧
    (update pal s opts).canvasWidth + (update pal s opts).svgWidth +
        (update pal s opts).webglWidth ≤ opts.viewport.width := by
  obtain ⟨dvs, vp⟩ := opts
  rcases dvs with _ | ⟨⟨co⟩, rest⟩
  · exact absurd rfl h
  · rcases co with _ | c
    · exact absurd rfl h
    · have h2 : getDataPoints pal c ≠ [] := h
      have hl : ¬(getDataPoints pal c).length = 0 := by
        simpa [List.length_eq_zero] using h2
      simp only [update, List.head?_cons, if_neg hl, true_and]
      linarith

/-- C5 witness: the concrete three-point update in a 900 by 400 viewport. -/
theorem update_sizes_surfaces_witness :
    extractedPoints pal0 dataOpts ≠ [] ∧
    (update pal0 st0 dataOpts).canvasWidth = dataOpts.viewport.width / 3 - 20 ∧
    (update pal0 st0 dataOpts).canvasWidth + (update pal0 st0 dataOpts).svgWidth +
        (update pal0 st0 dataOpts).webglWidth ≤ dataOpts.viewport.width :=
  ⟨by decide, (update_sizes_surfaces pal0 st0 dataOpts (by decide)).1,
    (update_sizes_surfaces pal0 st0 dataOpts (by decide)).2.2.2.2.2.2⟩

/-- C5 counterexample: an update call stopped by the no-data guard leaves
the stale surface width 999 in place instead of sizing it to
900 / 3 - 20, refuting the claim that every update call sizes the
surfaces. -/
theorem update_noData_does_not_resize :
    (update pal0 st0 noDataOpts).canvasWidth = 999 ∧
    (999 : ℚ) ≠ noDataOpts.viewport.width / 3 - 20 :=
  ⟨rfl, by norm_num [noDataOpts]⟩

/-- The pie layout yields one arc per datum. -/
theorem pieArcsAux_length (total : ℚ) :
    ∀ (a0 : ℚ) (l : List DataPoint), (pieArcsAux total a0 l).length = l.length := by
  intro a0 l
  induction l generalizing a0 with
  | nil => rfl
  | cons d rest ih => simp [pieArcsAux, ih]

/-- C4 (amended): only the bar renderer short-circuits to a no-op clear
when its computed chart dimensions are non-positive; the donut renderer
draws one segment per point regardless of its computed radius, and the
placeholder renderer draws its fixed shape regardless of surface size. -/
theorem renderer_dimension_guards :
    (∀ (ps : List DataPoint) (w h : ℚ),
        w - margin.left - margin.right ≤ 0 ∨ h - margin.top - margin.bottom ≤ 0 →
        renderCanvasBarChart ps w h = { cleared := some (w, h), bars := [] }) ∧
    (∀ (ps : List DataPoint) (w h : ℚ),
        (renderSVGDonutChart ps w h).arcs.length = ps.length) ∧
    (∀ prev : WebGLSurface, (renderWebGLText true prev).drawnVertices = squareVertices) := by
  refine ⟨?_, ?_, ?_⟩
  · intro ps w h hdim
    unfold renderCanvasBarChart
    rw [if_pos hdim]
  · intro ps w h
    simp [renderSVGDonutChart, d3Pie, pieArcsAux_length]
  · intro prev
    rfl

/-- C4 witness: a 10 by 10 surface makes the bar chart dimensions
non-positive, yet the donut and placeholder renderers still draw. -/
theorem renderer_dimension_guards_witness :
    ((10 : ℚ) - margin.left - margin.right ≤ 0 ∨
      (10 : ℚ) - margin.top - margin.bottom ≤ 0) ∧
    renderCanvasBarChart ps3 10 10 = { cleared := some (10, 10), bars := [] } ∧
    (renderSVGDonutChart ps3 10 10).arcs.length = ps3.length ∧
    (renderWebGLText true { clearColor := none, drawnVertices := [] }).drawnVertices
      = squareVertices :=
  ⟨Or.inl (by norm_num [margin]),
    renderer_dimension_guards.1 ps3 10 10 (Or.inl (by norm_num [margin])),
    renderer_dimension_guards.2.1 ps3 10 10,
    renderer_dimension_guards.2.2 { clearColor := none, drawnVertices := [] }⟩

/-- C4 counterexample: on a 10 by 10 surface the donut renderer's computed
outer radius is negative, yet it still appends one path per data point,
refuting the claim that every renderer no-ops on non-positive computed
dimensions. -/
theorem donut_draws_at_nonpositive_radius :
    (renderSVGDonutChart ps3 10 10).arcs ≠ [] ∧
    (renderSVGDonutChart ps3 10 10).radius ≤ 0 ∧
    ∀ a ∈ (renderSVGDonutChart ps3 10 10).arcs, a.outerRadius ≤ 0 := by
  refine ⟨?_, ?_, ?_⟩
  · have hlen : (renderSVGDonutChart ps3 10 10).arcs.length = ps3.length := by
      simp [renderSVGDonutChart, d3Pie, pieArcsAux_length]
    intro hnil
    rw [hnil] at hlen
    simp [ps3] at hlen
  · show (min (10 : ℚ) 10) / 2 - 40 ≤ 0
    rw [min_self]
    norm_num
  · intro a ha
    simp only [renderSVGDonutChart, List.mem_map] at ha
    obtain ⟨t, ht, rfl⟩ := ha
    show (min (10 : ℚ) 10) / 2 - 40 ≤ 0
    rw [min_self]
    norm_num

/-- Every drawn bar's height comes from some data point divided by the
shared maxValue and scaled by the chart height. -/
theorem barListAux_mem (maxValue chartHeight barWidth spacing : ℚ) :
    ∀ (i : ℕ) (l : List DataPoint) (b : BarDraw),
      b ∈ barListAux maxValue chartHeight barWidth spacing i l →
      ∃ d ∈ l, b.barHeight = d.value.map (fun v => v / maxValue * chartHeight) := by
  intro i l
  induction l generalizing i with
  | nil => intro b hb; simp [barListAux] at hb
  | cons d rest ih =>
    intro b hb
    simp only [barListAux, List.mem_cons] at hb
    rcases hb with rfl | hb
    · exact ⟨d, List.mem_cons_self d rest, rfl⟩
    · obtain ⟨e, he, hbe⟩ := ih (i + 1) b hb
      exact ⟨e, List.mem_cons_of_mem d he, hbe⟩

/-- C6: for a non-empty DataPoint list the bar renderer's divisor is the
maximum of the defined values, replaced by 1 exactly when that maximum is
zero or absent, so it is never zero; in particular an all-zero list draws
every bar with height 0. -/
theorem bar_maxValue_never_zero (ps : List DataPoint) (w h : ℚ) (_hne : ps ≠ []) :
    maxValueOf ps ≠ 0 ∧
    (∀ m, d3Max (ps.map (fun d => d.value)) = some m → m ≠ 0 → maxValueOf ps = m) ∧
    ((d3Max (ps.map (fun d => d.value)) = none ∨
        d3Max (ps.map (fun d => d.value)) = some 0) → maxValueOf ps = 1) ∧
    ((∀ p ∈ ps, p.value = some 0) →
      ∀ b ∈ (renderCanvasBarChart ps w h).bars, b.barHeight = some 0) := by
  refine ⟨?_, ?_, ?_, ?_⟩
  · unfold maxValueOf
    rcases hd : d3Max (ps.map (fun d => d.value)) with _ | m <;> rw [hd]
    · exact one_ne_zero
    · by_cases hm : m = 0 <;> simp [hm]
  · intro m hm hne0
    unfold maxValueOf
    rw [hm]
    simp [hne0]
  · intro hd
    unfold maxValueOf
    rcases hd with hd | hd <;> rw [hd] <;> simp
  · intro hz b hb
    simp only [renderCanvasBarChart] at hb
    split at hb
    · simp at hb
    · obtain ⟨d, hd, hbe⟩ := barListAux_mem _ _ _ _ 0 ps b (by simpa using hb)
      rw [hz d hd] at hbe
      simpa using hbe

/-- C6 witness: a single all-zero data point on a 300 by 300 surface. -/
theorem bar_maxValue_never_zero_witness :
    ps0zero ≠ [] ∧ (∀ p ∈ ps0zero, p.value = some 0) ∧
    maxValueOf ps0zero ≠ 0 ∧
    (∀ b ∈ (renderCanvasBarChart ps0zero 300 300).bars, b.barHeight = some 0) :=
  ⟨by decide, by decide, (bar_maxValue_never_zero ps0zero 300 300 (by decide)).1,
    (bar_maxValue_never_zero ps0zero 300 300 (by decide)).2.2.2 (by decide)⟩

/-- The clamp never goes below 0. -/
theorem clamp255_nonneg (x : ℤ) : 0 ≤ clamp255 x := le_max_left 0 _

/-- The clamp never exceeds 255. -/
theorem clamp255_le_255 (x : ℤ) : clamp255 x ≤ 255 :=
  max_le (by norm_num) (min_le_left 255 x)

/-- A value already in the byte range is unchanged by the clamp. -/
theorem clamp255_eq_self {x : ℤ} (h0 : 0 ≤ x) (h255 : x ≤ 255) : clamp255 x = x := by
  unfold clamp255
  rw [min_eq_right h255, max_eq_right h0]

/-- Channel decomposition of an adjusted color: the three clamped channels
can be read back off the recomposed 24-bit value. -/
theorem adjust_decomp (num : ℕ) (k : ℤ) :
    channelR (adjustColorBrightness num k) = (clamp255 ((channelR num : ℤ) + k)).toNat ∧
    channelG (adjustColorBrightness num k) = (clamp255 ((channelG num : ℤ) + k)).toNat ∧
    channelB (adjustColorBrightness num k) = (clamp255 ((channelB num : ℤ) + k)).toNat ∧
    adjustColorBrightness num k < 16777216 := by
  have h1 := clamp255_nonneg ((channelR num : ℤ) + k)
  have h2 := clamp255_le_255 ((channelR num : ℤ) + k)
  have h3 := clamp255_nonneg ((channelG num : ℤ) + k)
  have h4 := clamp255_le_255 ((channelG num : ℤ) + k)
  have h5 := clamp255_nonneg ((channelB num : ℤ) + k)
  have h6 := clamp255_le_255 ((channelB num : ℤ) + k)
  simp only [adjustColorBrightness, channelR, channelG, channelB] at *
  omega

/-- Adjusting a channel by k and then by -k restores it when the first
adjustment did not clip. -/
theorem clamp255_toNat_roundtrip (c : ℕ) (k : ℤ) (hc : c ≤ 255)
    (h0 : 0 ≤ (c : ℤ) + k) (h1 : (c : ℤ) + k ≤ 255) :
    (clamp255 (((clamp255 ((c : ℤ) + k)).toNat : ℤ) + (-k))).toNat = c := by
  rw [clamp255_eq_self h0 h1, Int.toNat_of_nonneg h0]
  have h2 : (c : ℤ) + k + (-k) = (c : ℤ) := by ring
  rw [h2, clamp255_eq_self (Int.natCast_nonneg c) (by exact_mod_cast hc)]
  simp

/-- C8: each output channel of a brightness adjustment is the input
channel offset by k and clamped to [0, 255], the result is again a 6-digit
color, and adjusting by +k then -k restores a 6-digit color whenever no
channel clips at either boundary. -/
theorem adjust_brightness_clamped_invertible (num : ℕ) (k : ℤ) (h24 : num < 16777216) :
    (channelR (adjustColorBrightness num k) = (clamp255 ((channelR num : ℤ) + k)).toNat ∧
      channelG (adjustColorBrightness num k) = (clamp255 ((channelG num : ℤ) + k)).toNat ∧
      channelB (adjustColorBrightness num k) = (clamp255 ((channelB num : ℤ) + k)).toNat ∧
      channelR (adjustColorBrightness num k) ≤ 255 ∧
      channelG (adjustColorBrightness num k) ≤ 255 ∧
      channelB (adjustColorBrightness num k) ≤ 255 ∧
      adjustColorBrightness num k < 16777216) ∧
    ((0 ≤ (channelR num : ℤ) + k ∧ (channelR num : ℤ) + k ≤ 255 ∧
        0 ≤ (channelG num : ℤ) + k ∧ (channelG num : ℤ) + k ≤ 255 ∧
        0 ≤ (channelB num : ℤ) + k ∧ (channelB num : ℤ) + k ≤ 255) →
      adjustColorBrightness (adjustColorBrightness num k) (-k) = num) := by
  obtain ⟨eR, eG, eB, hlt⟩ := adjust_decomp num k
  constructor
  · refine ⟨eR, eG, eB, ?_, ?_, ?_, hlt⟩
    · rw [eR]
      have := clamp255_le_255 ((channelR num : ℤ) + k)
      have := clamp255_nonneg ((channelR num : ℤ) + k)
      omega
    · rw [eG]
      have := clamp255_le_255 ((channelG num : ℤ) + k)
      have := clamp255_nonneg ((channelG num : ℤ) + k)
      omega
    · rw [eB]
      have := clamp255_le_255 ((channelB num : ℤ) + k)
      have := clamp255_nonneg ((channelB num : ℤ) + k)
      omega
  · rintro ⟨hr0, hr1, hg0, hg1, hb0, hb1⟩
    have hcR : channelR num ≤ 255 := by unfold channelR; omega
    have hcG : channelG num ≤ 255 := by unfold channelG; omega
    have hcB : channelB num ≤ 255 := by unfold channelB; omega
    obtain ⟨fR, fG, fB, hlt2⟩ := adjust_decomp (adjustColorBrightness num k) (-k)
    rw [eR] at fR
    rw [eG] at fG
    rw [eB] at fB
    have fR2 : channelR (adjustColorBrightness (adjustColorBrightness num k) (-k)) =
        channelR num := fR.trans (clamp255_toNat_roundtrip (channelR num) k hcR hr0 hr1)
    have fG2 : channelG (adjustColorBrightness (adjustColorBrightness num k) (-k)) =
        channelG num := fG.trans (clamp255_toNat_roundtrip (channelG num) k hcG hg0 hg1)
    have fB2 : channelB (adjustColorBrightness (adjustColorBrightness num k) (-k)) =
        channelB num := fB.trans (clamp255_toNat_roundtrip (channelB num) k hcB hb0 hb1)
    have hre : ∀ n : ℕ, n < 16777216 →
        n = channelR n * 65536 + channelG n * 256 + channelB n := by
      intro n hn
      unfold channelR channelG channelB
      omega
    calc adjustColorBrightness (adjustColorBrightness num k) (-k)
        = channelR (adjustColorBrightness (adjustColorBrightness num k) (-k)) * 65536 +
            channelG (adjustColorBrightness (adjustColorBrightness num k) (-k)) * 256 +
            channelB (adjustColorBrightness (adjustColorBrightness num k) (-k)) :=
          hre _ hlt2
      _ = channelR num * 65536 + channelG num * 256 + channelB num := by
          rw [fR2, fG2, fB2]
      _ = num := (hre num h24).symm

/-- C8 witness: the color 0x123456 brightened by 30 and darkened back. -/
theorem adjust_brightness_witness :
    1193046 < 16777216 ∧
    (0 ≤ (channelR 1193046 : ℤ) + 30 ∧ (channelR 1193046 : ℤ) + 30 ≤ 255 ∧
      0 ≤ (channelG 1193046 : ℤ) + 30 ∧ (channelG 1193046 : ℤ) + 30 ≤ 255 ∧
      0 ≤ (channelB 1193046 : ℤ) + 30 ∧ (channelB 1193046 : ℤ) + 30 ≤ 255) ∧
    adjustColorBrightness (adjustColorBrightness 1193046 30) (-30) = 1193046 :=
  ⟨by decide, by decide,
    (adjust_brightness_clamped_invertible 1193046 30 (by decide)).2 (by decide)⟩

/-- A value passing the positivity test of the pie layout is defined and
positive. -/
theorem isPosValue_getD_pos {ov : Option ℚ} (h : isPosValue ov = true) : 0 < ov.getD 0 := by
  cases ov with
  | none => simp [isPosValue] at h
  | some v => simpa [isPosValue] using h

/-- The positive-value sum of the pie layout is never negative. -/
theorem piePositiveSum_nonneg : ∀ l : List (Option ℚ), 0 ≤ piePositiveSum l := by
  intro l
  induction l with
  | nil => simp [piePositiveSum]
  | cons ov rest ih =>
    unfold piePositiveSum
    by_cases h : isPosValue ov = true
    · have h1 := isPosValue_getD_pos h
      simp only [h, if_true]
      linarith
    · simp only [Bool.not_eq_true] at h
      simp only [h, Bool.false_eq_true, if_false]
      linarith

/-- With at least one all-positive entry the pie total is positive. -/
theorem piePositiveSum_pos (l : List (Option ℚ)) (hne : l ≠ [])
    (hpos : ∀ ov ∈ l, isPosValue ov = true) : 0 < piePositiveSum l := by
  cases l with
  | nil => exact absurd rfl hne
  | cons ov rest =>
    unfold piePositiveSum
    have h1 := isPosValue_getD_pos (hpos ov (List.mem_cons_self ov rest))
    have h2 := piePositiveSum_nonneg rest
    simp only [hpos ov (List.mem_cons_self ov rest), if_true]
    linarith

/-- When every entry is positive the pie total is the plain sum of the
values. -/
theorem piePositiveSum_eq_sum (l : List (Option ℚ))
    (hpos : ∀ ov ∈ l, isPosValue ov = true) :
    piePositiveSum l = (l.map (fun ov => ov.getD 0)).sum := by
  induction l with
  | nil => rfl
  | cons ov rest ih =>
    unfold piePositiveSum
    simp only [hpos ov (List.mem_cons_self ov rest), if_true, List.map_cons, List.sum_cons]
    rw [ih (fun x hx => hpos x (List.mem_cons_of_mem ov hx))]

/-- The pie layout keeps the data in input order. -/
theorem pieArcsAux_map_fst (total : ℚ) :
    ∀ (a0 : ℚ) (l : List DataPoint), (pieArcsAux total a0 l).map (fun t => t.1) = l := by
  intro a0 l
  induction l generalizing a0 with
  | nil => rfl
  | cons d rest ih => simp [pieArcsAux, ih]

/-- Each pie arc spans exactly the angular share the span function assigns
to its datum. -/
theorem pieArcsAux_map_span (total : ℚ) :
    ∀ (a0 : ℚ) (l : List DataPoint),
      (pieArcsAux total a0 l).map (fun t => t.2.2 - t.2.1) =
        l.map (fun d => pieSpanOf total d.value) := by
  intro a0 l
  induction l generalizing a0 with
  | nil => rfl
  | cons d rest ih => simp [pieArcsAux, ih, add_sub_cancel_left]

/-- Dividing each summand distributes over a list sum. -/
theorem sum_map_div (l : List ℚ) (t : ℚ) :
    (l.map (fun v => v / t)).sum = l.sum / t := by
  induction l with
  | nil => simp
  | cons v rest ih => simp [ih, add_div]

/-- The categories of the rendered donut arcs are the input categories in
input order. -/
theorem donutArcs_map_category (ps : List DataPoint) (ir r : ℚ) :
    ((d3Pie ps).map (toDonutArc ir r)).map (fun a => a.category) =
      ps.map (fun d => d.category) := by
  rw [List.map_map]
  have h1 : ((fun (a : Arc) => a.category) ∘ toDonutArc ir r) =
      (fun (t : DataPoint × ℚ × ℚ) => t.1.category) := rfl
  have h2 : (fun (t : DataPoint × ℚ × ℚ) => t.1.category) =
      ((fun (d : DataPoint) => d.category) ∘ (fun (t : DataPoint × ℚ × ℚ) => t.1)) := rfl
  rw [h1, h2, ← List.map_map, d3Pie, pieArcsAux_map_fst]

/-- The turn spans of the rendered donut arcs are the pie spans of the
input values in input order. -/
theorem donutArcs_map_span (ps : List DataPoint) (ir r : ℚ) :
    ((d3Pie ps).map (toDonutArc ir r)).map (fun a => a.endTurns - a.startTurns) =
      ps.map (fun d => pieSpanOf (piePositiveSum (ps.map (fun e => e.value))) d.value) := by
  rw [List.map_map]
  have h1 : ((fun (a : Arc) => a.endTurns - a.startTurns) ∘ toDonutArc ir r) =
      (fun (t : DataPoint × ℚ × ℚ) => t.2.2 - t.2.1) := rfl
  rw [h1, d3Pie, pieArcsAux_map_span]

/-- C7: for a non-empty list of all-positive measures, the donut renderer
lays the segments out in input order with no sorting, point i receiving a
turn fraction equal to its value over the total, so its radian span is
2 pi times value over total, and the spans sum to one full turn, 2 pi
radians. -/
theorem donut_spans_proportional (ps : List DataPoint) (w h : ℚ)
    (hne : ps ≠ []) (hpos : ∀ p ∈ ps, isPosValue p.value = true) :
    ((renderSVGDonutChart ps w h).arcs.map (fun a => a.category) =
        ps.map (fun d => d.category)) ∧
    ((renderSVGDonutChart ps w h).arcs.map (fun a => a.endTurns - a.startTurns) =
        ps.map (fun d => d.value.getD 0 / piePositiveSum (ps.map (fun e => e.value)))) ∧
    (((renderSVGDonutChart ps w h).arcs.map (fun a => a.endTurns - a.startTurns)).sum = 1) ∧
    (((((renderSVGDonutChart ps w h).arcs.map
          (fun a => a.endTurns - a.startTurns)).sum : ℚ) : ℝ) * (2 * Real.pi)
        = 2 * Real.pi) := by
  have hmapne : ps.map (fun e => e.value) ≠ [] := by
    intro hnil
    exact hne (List.map_eq_nil_iff.mp hnil)
  have hmappos : ∀ ov ∈ ps.map (fun e => e.value), isPosValue ov = true := by
    intro ov hov
    obtain ⟨p, hp, rfl⟩ := List.mem_map.mp hov
    exact hpos p hp
  have htpos : 0 < piePositiveSum (ps.map (fun e => e.value)) :=
    piePositiveSum_pos _ hmapne hmappos
  have htne : piePositiveSum (ps.map (fun e => e.value)) ≠ 0 := ne_of_gt htpos
  have harcs : (renderSVGDonutChart ps w h).arcs =
      (d3Pie ps).map
        (toDonutArc (((min w h) / 2 - 40) * 0.6) ((min w h) / 2 - 40)) := rfl
  have hcat : (renderSVGDonutChart ps w h).arcs.map (fun a => a.category) =
      ps.map (fun d => d.category) := by
    rw [harcs, donutArcs_map_category]
  have hspan : (renderSVGDonutChart ps w h).arcs.map (fun a => a.endTurns - a.startTurns) =
      ps.map (fun d => d.value.getD 0 / piePositiveSum (ps.map (fun e => e.value))) := by
    rw [harcs, donutArcs_map_span]
    refine List.map_congr_left ?_
    intro p hp
    unfold pieSpanOf
    simp [hpos p hp, htne]
  have hsum : ((renderSVGDonutChart ps w h).arcs.map
      (fun a => a.endTurns - a.startTurns)).sum = 1 := by
    rw [hspan]
    have h1 : ps.map (fun d => d.value.getD 0 / piePositiveSum (ps.map (fun e => e.value))) =
        (ps.map (fun d => d.value.getD 0)).map
          (fun v => v / piePositiveSum (ps.map (fun e => e.value))) := by
      rw [List.map_map]
      rfl
    rw [h1, sum_map_div]
    have h2 : (ps.map (fun d => d.value.getD 0)).sum =
        piePositiveSum (ps.map (fun e => e.value)) := by
      rw [piePositiveSum_eq_sum _ hmappos, List.map_map]
      rfl
    rw [h2, div_self htne]
  refine ⟨hcat, hspan, hsum, ?_⟩
  rw [hsum]
  push_cast
  ring

/-- C7 witness: three points with measures 10, 20, 30 span turn fractions
that sum to one. -/
theorem donut_spans_proportional_witness :
    ps3 ≠ [] ∧ (∀ p ∈ ps3, isPosValue p.value = true) ∧
    ((renderSVGDonutChart ps3 900 400).arcs.map
        (fun a => a.endTurns - a.startTurns)).sum = 1 :=
  ⟨by decide, by decide, (donut_spans_proportional ps3 900 400 (by decide) (by decide)).2.2.1⟩

/-- Every arc of a freshly rendered donut has the pass's outer radius. -/
theorem renderSVGDonutChart_arcs_outer (ps : List DataPoint) (w h : ℚ) :
    ∀ a ∈ (renderSVGDonutChart ps w h).arcs,
      a.outerRadius = (renderSVGDonutChart ps w h).radius := by
  intro a ha
  have harcs : (renderSVGDonutChart ps w h).arcs =
      (d3Pie ps).map
        (toDonutArc (((min w h) / 2 - 40) * 0.6) ((min w h) / 2 - 40)) := rfl
  rw [harcs] at ha
  obtain ⟨t, ht, rfl⟩ := List.mem_map.mp ha
  rfl

/-- Rewriting the outer radius at one index leaves every other index
untouched. -/
theorem setOuterRadiusAt_getElem_ne (r : ℚ) :
    ∀ (l : List Arc) (i j : ℕ), j ≠ i → (setOuterRadiusAt r i l)[j]? = l[j]? := by
  intro l
  induction l with
  | nil => intro i j hj; cases i <;> rfl
  | cons a rest ih =>
    intro i j hj
    cases i with
    | zero =>
      cases j with
      | zero => exact absurd rfl hj
      | succ j => simp [setOuterRadiusAt]
    | succ i =>
      cases j with
      | zero => simp [setOuterRadiusAt]
      | succ j =>
        simp only [setOuterRadiusAt, List.getElem?_cons_succ]
        exact ih i j (fun hji => hj (by rw [hji]))

/-- Rewriting the outer radius at an index changes exactly that entry's
outer radius. -/
theorem setOuterRadiusAt_getElem_self (r : ℚ) :
    ∀ (l : List Arc) (i : ℕ),
      (setOuterRadiusAt r i l)[i]? = (l[i]?).map (fun a => { a with outerRadius := r }) := by
  intro l
  induction l with
  | nil => intro i; cases i <;> rfl
  | cons a rest ih =>
    intro i
    cases i with
    | zero => simp [setOuterRadiusAt]
    | succ i => simpa [setOuterRadiusAt] using ih i

/-- Rewriting an outer radius twice at the same index keeps only the
second write. -/
theorem setOuterRadiusAt_twice (r r2 : ℚ) :
    ∀ (l : List Arc) (i : ℕ),
      setOuterRadiusAt r i (setOuterRadiusAt r2 i l) = setOuterRadiusAt r i l := by
  intro l
  induction l with
  | nil => intro i; cases i <;> rfl
  | cons a rest ih =>
    intro i
    cases i with
    | zero => rfl
    | succ i => simp [setOuterRadiusAt, ih i]

/-- Rewriting an outer radius to the value it already has everywhere is
the identity. -/
theorem setOuterRadiusAt_of_all_eq (r : ℚ) :
    ∀ (l : List Arc) (i : ℕ), (∀ a ∈ l, a.outerRadius = r) → setOuterRadiusAt r i l = l := by
  intro l
  induction l with
  | nil => intro i _; cases i <;> rfl
  | cons a rest ih =>
    intro i hall
    cases i with
    | zero =>
      have ha := hall a (List.mem_cons_self a rest)
      simp only [setOuterRadiusAt]
      rw [← ha]
    | succ i =>
      simp [setOuterRadiusAt, ih i (fun x hx => hall x (List.mem_cons_of_mem a hx))]

/-- C9: on a rendered donut, a pointer-enter over segment i rewrites only
that segment's outer radius, from the pass radius to radius + 10, leaving
every other segment's geometry untouched, and a pointer-leave rewrites it
back, restoring the rendered content exactly. -/
theorem donut_hover_local (ps : List DataPoint) (w h : ℚ) (i : ℕ) (_hi : i < ps.length) :
    (∀ j : ℕ, j ≠ i →
      (onDonutMouseover (renderSVGDonutChart ps w h) i).arcs[j]? =
          (renderSVGDonutChart ps w h).arcs[j]? ∧
      (onDonutMouseout (renderSVGDonutChart ps w h) i).arcs[j]? =
          (renderSVGDonutChart ps w h).arcs[j]?) ∧
    ((onDonutMouseover (renderSVGDonutChart ps w h) i).arcs[i]? =
      ((renderSVGDonutChart ps w h).arcs[i]?).map
        (fun a => { a with outerRadius := (renderSVGDonutChart ps w h).radius + 10 })) ∧
    (∀ a ∈ (renderSVGDonutChart ps w h).arcs,
      a.outerRadius = (renderSVGDonutChart ps w h).radius) ∧
    (onDonutMouseout (onDonutMouseover (renderSVGDonutChart ps w h) i) i =
      renderSVGDonutChart ps w h) := by
  refine ⟨?_, ?_, renderSVGDonutChart_arcs_outer ps w h, ?_⟩
  · intro j hj
    exact ⟨setOuterRadiusAt_getElem_ne _ _ i j hj, setOuterRadiusAt_getElem_ne _ _ i j hj⟩
  · exact setOuterRadiusAt_getElem_self _ _ i
  · unfold onDonutMouseout onDonutMouseover
    dsimp only
    rw [setOuterRadiusAt_twice,
      setOuterRadiusAt_of_all_eq _ _ i (renderSVGDonutChart_arcs_outer ps w h)]

/-- C9 witness: hovering and leaving segment 1 of the concrete three-point
donut restores the rendered content. -/
theorem donut_hover_local_witness :
    1 < ps3.length ∧
    onDonutMouseout (onDonutMouseover (renderSVGDonutChart ps3 900 400) 1) 1 =
      renderSVGDonutChart ps3 900 400 :=
  ⟨by decide, (donut_hover_local ps3 900 400 1 (by decide)).2.2.2⟩
